import Mathlib

/-!
Shallow embedding of the MediTranslate backend (src/main.py).

Handlers are modelled as pure functions over an explicit database /
storage state.  A Python `raise HTTPException(status, detail)` becomes
`Except.error ⟨status, detail⟩`.  Every handler body sits in a
`try ... except Exception as e: raise HTTPException(500, str(e))`
block; since `fastapi.HTTPException` is itself an `Exception`, the
broad `except` also catches the handler's own 404/400 raises and
re-wraps them with status 500 — this re-wrapping is modelled by
`wrap500`, and `str(e)` for an HTTPException is modelled by
`strOfExc` (starlette renders it as "{status_code}: {detail}").
External calls (Groq, Supabase) are modelled as oracle parameters.
-/

/-- A persisted conversation row (table "conversations"). -/
structure Conversation where
  id : String
  patient_name : String
  doctor_lang : String
  patient_lang : String
  created_at : Nat
deriving Repr, DecidableEq

/-- A persisted message row (table "messages"). -/
structure Message where
  id : String
  conversation_id : String
  role : String
  original_text : String
  original_lang : String
  translated_text : String
  translated_lang : String
  audio_url : Option String
  created_at : Nat
deriving Repr, DecidableEq

/-- Models `fastapi.HTTPException(status_code, detail)`. -/
structure HTTPExc where
  status_code : Nat
  detail : String
deriving Repr, DecidableEq

/-- Models Python `str(e)` for an HTTPException: starlette renders
it as "{status_code}: {detail}". -/
def strOfExc (e : HTTPExc) : String :=
  toString e.status_code ++ ": " ++ e.detail

/-- Models the handler-wide
`except Exception as e: raise HTTPException(status_code=500, detail=str(e))`
applied to a body whose failures are HTTPExceptions. -/
def wrap500 {α : Type} : Except HTTPExc α → Except HTTPExc α
  | .ok a => .ok a
  | .error e => .error ⟨500, strOfExc e⟩

/-- Models Python `str.strip()`: removes whitespace from both ends. -/
def pyStrip (s : String) : String :=
  String.mk
    (((s.data.dropWhile Char.isWhitespace).reverse.dropWhile Char.isWhitespace).reverse)

/-- Handler GET /api/conversations/{conversation_id} (main.py 72-86).
The select with `.eq("id", conversation_id)` is modelled as a filter
over the table; `result.data[0]` is the head of the filtered rows. -/
def get_conversation (db : List Conversation) (conversation_id : String) :
    Except HTTPExc Conversation :=
  let inner : Except HTTPExc Conversation :=
    match db.filter (fun c => c.id == conversation_id) with
    | [] => .error ⟨404, "Conversation not found"⟩
    | c :: _ => .ok c
  wrap500 inner

/-- Python truthiness of an optional form field of type str:
`None` and `""` are falsy, every other string is truthy. -/
def truthy : Option String → Bool
  | none => false
  | some t => t != ""

/-- Applies a Supabase `.update(update_data)` to one row: only the
columns present in `update_data` are overwritten. -/
def applyUpdate (dl pl pn : Option String) (c : Conversation) : Conversation :=
  { c with
    doctor_lang := dl.getD c.doctor_lang
    patient_lang := pl.getD c.patient_lang
    patient_name := pn.getD c.patient_name }

/-- Handler PATCH /api/conversations/{conversation_id} (main.py 134-164).
`update_data` holds a key exactly when the corresponding form field is
truthy; an empty `update_data` raises 400, an update matching no row
raises 404, and either raise is caught by the broad `except` and
re-raised as 500 (`wrap500`).  Returns the handler response together
with the table after the call. -/
def update_conversation (db : List Conversation) (conversation_id : String)
    (doctor_lang patient_lang patient_name : Option String) :
    Except HTTPExc Conversation × List Conversation :=
  let ud_d := if truthy doctor_lang then doctor_lang else none
  let ud_p := if truthy patient_lang then patient_lang else none
  let ud_n := if truthy patient_name then patient_name else none
  if truthy doctor_lang || truthy patient_lang || truthy patient_name then
    let newDb := db.map
      (fun c => if c.id == conversation_id then applyUpdate ud_d ud_p ud_n c else c)
    let response : Except HTTPExc Conversation :=
      match (db.filter (fun c => c.id == conversation_id)).map
          (applyUpdate ud_d ud_p ud_n) with
      | [] => wrap500 (.error ⟨404, "Conversation not found"⟩)
      | c :: _ => .ok c
    (response, newDb)
  else
    (wrap500 (.error ⟨400, "No update data provided"⟩), db)

/-- Handler POST /api/conversations/{conversation_id}/messages
(main.py 106-132).  `translator` is the oracle for
`translate_text(text, source_lang, target_lang)` (itself raising
HTTPExceptions), `insertRes` the outcome of the Supabase insert;
the storage layer supplies the new row's id and created_at
(`newId`, `now`).  Returns the response and the messages table after
the call. -/
def create_text_message (msgs : List Message)
    (translator : String → String → String → Except HTTPExc String)
    (insertRes : Except String Unit) (newId : String) (now : Nat)
    (conversation_id role text source_lang target_lang : String) :
    Except HTTPExc Message × List Message :=
  match translator text source_lang target_lang with
  | .error e => (wrap500 (.error e), msgs)
  | .ok translation =>
    match insertRes with
    | .error s => (.error ⟨500, s⟩, msgs)
    | .ok _ =>
      let m : Message :=
        { id := newId, conversation_id := conversation_id, role := role
          original_text := text, original_lang := source_lang
          translated_text := translation, translated_lang := target_lang
          audio_url := none, created_at := now }
      (.ok m, msgs ++ [m])

/-- The externally visible state touched by the audio pipeline: the
objects in the "audio-files" storage bucket (path, bytes) and the
messages table. -/
structure AudioState where
  storage : List (String × List Nat)
  messages : List Message
deriving Repr, DecidableEq

/-- Handler POST /api/conversations/{conversation_id}/audio
(main.py 168-206): transcribe, translate, upload to
`{conversation_id}/{role}/{uuid}.webm`, build the public URL, insert
the row — in that order, each step aborting the rest on failure, no
rollback of earlier effects.  `transcriber` / `translator` are the
Groq oracles (raising HTTPExceptions), `uploadRes` / `insertRes` the
Supabase outcomes (raising plain exceptions rendered by their
message), `randId` the generated uuid4. -/
def process_audio (supabase_url : String) (st : AudioState)
    (transcriber : List Nat → Except HTTPExc String)
    (translator : String → String → String → Except HTTPExc String)
    (uploadRes insertRes : Except String Unit)
    (randId newMsgId : String) (now : Nat)
    (conversation_id role source_lang target_lang : String)
    (audio_bytes : List Nat) :
    Except HTTPExc Message × AudioState :=
  match transcriber audio_bytes with
  | .error e => (wrap500 (.error e), st)
  | .ok transcript =>
    match translator transcript source_lang target_lang with
    | .error e => (wrap500 (.error e), st)
    | .ok translation =>
      let file_path := conversation_id ++ "/" ++ role ++ "/" ++ randId ++ ".webm"
      match uploadRes with
      | .error s => (.error ⟨500, s⟩, st)
      | .ok _ =>
        let st1 : AudioState :=
          { st with storage := st.storage ++ [(file_path, audio_bytes)] }
        let audio_url :=
          supabase_url ++ "/storage/v1/object/public/audio-files/" ++ file_path
        match insertRes with
        | .error s => (.error ⟨500, s⟩, st1)
        | .ok _ =>
          let m : Message :=
            { id := newMsgId, conversation_id := conversation_id, role := role
              original_text := transcript, original_lang := source_lang
              translated_text := translation, translated_lang := target_lang
              audio_url := some audio_url, created_at := now }
          (.ok m, { st1 with messages := st1.messages ++ [m] })

/-- Modelled from the spec: the POST /api/audio/upload handler
(`uploadAudio`, spec section 4.6) is listed in the spec's HTTP surface
but its code is not present in src/main.py.  Per the spec's words it
writes `audioBytes` to object storage at
`{conversationId}/{role}/{randomId}.{ext}` (the extension derived from
`contentType`), returns the object's public URL and storage path, and
writes no database row. -/
def upload_audio (supabase_url : String) (st : AudioState)
    (conversation_id role : String) (audio_bytes : List Nat)
    (ext : String) (randId : String) :
    Except HTTPExc (String × String) × AudioState :=
  let path := conversation_id ++ "/" ++ role ++ "/" ++ randId ++ "." ++ ext
  let url := supabase_url ++ "/storage/v1/object/public/audio-files/" ++ path
  (.ok (url, path), { st with storage := st.storage ++ [(path, audio_bytes)] })

/-- Insertion step of the model of the storage layer's
`.order("created_at", desc=False)`. -/
def insertByCreated (m : Message) : List Message → List Message
  | [] => [m]
  | x :: xs =>
    if m.created_at ≤ x.created_at then m :: x :: xs
    else x :: insertByCreated m xs

/-- Models the storage layer returning the selected rows sorted by
created_at ascending. -/
def sortByCreated : List Message → List Message
  | [] => []
  | m :: ms => insertByCreated m (sortByCreated ms)

/-- The line main.py 226-229 builds from the fetched messages:
each message rendered as "{ROLE}: {original_text}" (role uppercased),
joined by newlines. -/
def conversationText (msgs : List Message) : String :=
  String.intercalate "\n"
    (msgs.map (fun m => m.role.toUpper ++ ": " ++ m.original_text))

/-- The full prompt `generate_medical_summary` (main.py 286-310) sends
to the chat model, with `conversation_text` embedded. -/
def summaryPrompt (conversation_text : String) : String :=
  "Analyze this doctor-patient conversation and provide a structured medical summary:\n\n"
    ++ conversation_text
    ++ "\n\nFormat the summary with these sections:\n- Chief Complaint\n- Symptoms\n- Diagnosis (if mentioned)\n- Medications (if mentioned)\n- Follow-up Actions\n\nBe concise and medical-focused."

/-- Helper generate_medical_summary (main.py 286-310): one completion
call on the prompt, response trimmed.  `model` is the chat-completion
oracle. -/
def generate_medical_summary (model : String → String)
    (conversation_text : String) : String :=
  pyStrip (model (summaryPrompt conversation_text))

/-- Handler POST /api/conversations/{conversation_id}/summary
(main.py 211-236): fetches the conversation's messages ascending by
created_at, raises 404 when there are none (re-wrapped to 500 by the
broad except), otherwise summarizes the joined conversation text. -/
def generate_summary (db : List Message) (conversation_id : String)
    (model : String → String) : Except HTTPExc String :=
  match sortByCreated (db.filter (fun m => m.conversation_id == conversation_id)) with
  | [] => wrap500 (.error ⟨404, "No messages found"⟩)
  | m :: rest =>
    wrap500 (.ok (generate_medical_summary model (conversationText (m :: rest))))

/-- Removal of a file from the file system, modelled on a list of
paths; `os.remove` guarded by `os.path.exists`. -/
def removeFile (p : String) (fs : List String) : List String :=
  fs.filter (fun x => x != p)

/-- Helper transcribe_audio (main.py 241-267).  The temp-file state is
the list of existing temp paths; `tempPath` is the name the tempfile
module picks, `writeRes` the outcome of writing the bytes, `provider`
the Groq Whisper oracle (failures rendered by their message).  The
inner `finally` removes the temp file on every path out of the inner
try; the outer except wraps any failure as
HTTPException(500, "Transcription failed: " + str(e)).  Returns the
result and the temp files left behind. -/
def transcribe_audio (tempFiles : List String) (tempPath : String)
    (writeRes : Except String Unit)
    (provider : List Nat → Except String String)
    (audio_bytes : List Nat) :
    Except HTTPExc String × List String :=
  let fs1 := tempFiles ++ [tempPath]
  let bodyResult : Except String String :=
    match writeRes with
    | .error s => .error s
    | .ok _ =>
      match provider audio_bytes with
      | .ok t => .ok (pyStrip t)
      | .error s => .error s
  let fs2 := removeFile tempPath fs1
  let res : Except HTTPExc String :=
    match bodyResult with
    | .ok t => .ok t
    | .error s => .error ⟨500, "Transcription failed: " ++ s⟩
  (res, fs2)

/-- Whether `pat` occurs at the start of `text`. -/
def matchAt : List Char → List Char → Bool
  | [], _ => true
  | _ :: _, [] => false
  | p :: ps, c :: cs => p == c && matchAt ps cs

/-- First index at or after `i` where `pat` occurs in the text. -/
def findFrom (pat : List Char) : Nat → List Char → Option Nat
  | i, [] => if matchAt pat [] then some i else none
  | i, c :: rest =>
    if matchAt pat (c :: rest) then some i else findFrom pat (i + 1) rest

/-- Models Python `text.find(pat)` (None for -1). -/
def strFind (text pat : List Char) : Option Nat :=
  findFrom pat 0 text

/-- Character-wise lowering, modelling `str.lower()`. -/
def lowerStr (s : List Char) : List Char :=
  s.map Char.toLower

/-- The literal "..." marker. -/
def ellipsis : List Char :=
  ['.', '.', '.']

/-- Context computation of the search handler (main.py 356-369):
`idx = text.lower().find(q.lower())`; if found, the slice
`text[max(0, idx-30) : min(len(text), idx+len(q)+30)]` with "..."
prepended when the slice starts after 0 and appended when it stops
before the end; otherwise the first 100 characters with a trailing
"..." when the text is longer. -/
def searchContext (text q : List Char) : List Char :=
  match strFind (lowerStr text) (lowerStr q) with
  | some idx =>
    let start := idx - 30
    let stop := min text.length (idx + q.length + 30)
    let ctx := (text.drop start).take (stop - start)
    let ctx2 := if 0 < start then ellipsis ++ ctx else ctx
    if stop < text.length then ctx2 ++ ellipsis else ctx2
  | none =>
    if 100 < text.length then text.take 100 ++ ellipsis else text

/-- The claim's description of the context, written from the spec's
words: the window of the text from at most 30 characters before the
first case-insensitive occurrence of the query to at most 30
characters after it, with "..." exactly when characters were cut on
the corresponding side; first-100-characters fallback when the query
does not occur. -/
def specContextWindow (text q : List Char) : List Char :=
  match strFind (lowerStr text) (lowerStr q) with
  | some idx =>
    let lo := if idx ≤ 30 then 0 else idx - 30
    let hi :=
      if text.length ≤ idx + q.length + 30 then text.length
      else idx + q.length + 30
    let window := (text.take hi).drop lo
    let pre := if lo = 0 then [] else ellipsis
    let post := if hi = text.length then [] else ellipsis
    pre ++ window ++ post
  | none =>
    if text.length ≤ 100 then text else text.take 100 ++ ellipsis

/-- A message row joined with its conversation's patient_name, as
returned by the select with `conversations!inner(patient_name)`. -/
structure JoinedMsg where
  msg : Message
  patient_name : String
deriving Repr, DecidableEq

/-- Case-insensitive substring containment, modelling the database's
`ilike '%q%'`. -/
def containsCI (text q : String) : Bool :=
  (strFind (lowerStr text.data) (lowerStr q.data)).isSome

/-- The rows the database returns for the search select: messages
whose original_text or translated_text matches `%q%`
case-insensitively, capped at 50. -/
def ilikeRows (db : List JoinedMsg) (q : String) : List JoinedMsg :=
  (db.filter (fun r =>
    containsCI r.msg.original_text q || containsCI r.msg.translated_text q)).take 50

/-- One formatted search result (main.py 371-379). -/
structure SearchResult where
  message_id : String
  conversation_id : String
  patient_name : String
  text : String
  context : String
  role : String
  created_at : Nat
deriving Repr, DecidableEq

/-- Formats one matched row as the handler does. -/
def mkSearchResult (q : String) (r : JoinedMsg) : SearchResult :=
  { message_id := r.msg.id, conversation_id := r.msg.conversation_id
    patient_name := r.patient_name, text := r.msg.original_text
    context := String.mk (searchContext r.msg.original_text.data q.data)
    role := r.msg.role, created_at := r.msg.created_at }

/-- Handler GET /api/search (main.py 339-383): queries shorter than 2
characters after trimming (the empty string included) return the empty
list before any storage call; otherwise the matched rows are formatted
with their context. -/
def search_conversations (db : List JoinedMsg) (q : String) :
    Except HTTPExc (List SearchResult) :=
  if q = "" ∨ (pyStrip q).length < 2 then .ok []
  else .ok ((ilikeRows db q).map (mkSearchResult q))

/-- C1: for every conversation id, getConversation returns the single
matching conversation record when one exists; but when no row matches,
the handler's own 404 HTTPException is caught by its broad
`except Exception` and re-raised as status 500, so the failure reaches
the client as HTTP 500 (detail "404: Conversation not found"), not as
the HTTP 404 the claim states. -/
theorem get_conversation_c1 :
    (∀ (db : List Conversation) (cid : String) (c : Conversation),
      db.filter (fun x => x.id == cid) = [c] →
      get_conversation db cid = .ok c) ∧
    get_conversation [] "missing" =
      .error ⟨500, "404: Conversation not found"⟩ := by
  constructor
  · intro db cid c h
    unfold get_conversation
    rw [h]
    rfl
  · rfl

/-- Witness for C1 at a concrete one-row table. -/
theorem get_conversation_c1_witness :
    get_conversation [⟨"c1", "Bob", "English", "Spanish", 0⟩] "c1" =
      .ok ⟨"c1", "Bob", "English", "Spanish", 0⟩ :=
  get_conversation_c1.1 _ _ _ (by decide)

/-- C2: the standalone uploadAudio operation (modelled from the spec,
its code being absent from src/main.py) writes the audio to object
storage at path conversationId/role/randomId.ext, returns the object's
public URL together with that storage path, and leaves the messages
table untouched. -/
theorem upload_audio_c2 :
    ∀ (su : String) (st : AudioState) (cid role : String)
      (bytes : List Nat) (ext randId : String),
      upload_audio su st cid role bytes ext randId =
        (.ok
          (su ++ "/storage/v1/object/public/audio-files/"
              ++ (cid ++ "/" ++ role ++ "/" ++ randId ++ "." ++ ext),
           cid ++ "/" ++ role ++ "/" ++ randId ++ "." ++ ext),
         { storage := st.storage
             ++ [(cid ++ "/" ++ role ++ "/" ++ randId ++ "." ++ ext, bytes)],
           messages := st.messages }) := by
  intro su st cid role bytes ext randId
  rfl

/-- C6: createTextMessage translates the given text, inserts exactly
one Message whose original_text is the input text, whose
translated_text is the adapter's result and whose audio_url is null,
and returns that created record. -/
theorem create_text_message_c6 :
    ∀ (msgs : List Message)
      (translator : String → String → String → Except HTTPExc String)
      (insertRes : Except String Unit) (newId : String) (now : Nat)
      (cid role text sl tl tr : String),
      translator text sl tl = .ok tr → insertRes = .ok () →
      create_text_message msgs translator insertRes newId now cid role text sl tl =
        (.ok
          { id := newId, conversation_id := cid, role := role
            original_text := text, original_lang := sl
            translated_text := tr, translated_lang := tl
            audio_url := none, created_at := now },
         msgs ++
          [{ id := newId, conversation_id := cid, role := role
             original_text := text, original_lang := sl
             translated_text := tr, translated_lang := tl
             audio_url := none, created_at := now }]) := by
  intro msgs translator insertRes newId now cid role text sl tl tr h1 h2
  unfold create_text_message
  rw [h1, h2]

/-- Witness for C6: the spec's end-to-end example, where the adapter
returns "Hola" for "Hello". -/
theorem create_text_message_c6_witness :
    create_text_message [] (fun _ _ _ => .ok "Hola") (.ok ()) "m1" 7
        "c1" "doctor" "Hello" "English" "Spanish" =
      (.ok
        { id := "m1", conversation_id := "c1", role := "doctor"
          original_text := "Hello", original_lang := "English"
          translated_text := "Hola", translated_lang := "Spanish"
          audio_url := none, created_at := 7 },
       [{ id := "m1", conversation_id := "c1", role := "doctor"
          original_text := "Hello", original_lang := "English"
          translated_text := "Hola", translated_lang := "Spanish"
          audio_url := none, created_at := 7 }]) :=
  create_text_message_c6 [] (fun _ _ _ => .ok "Hola") (.ok ()) "m1" 7
    "c1" "doctor" "Hello" "English" "Spanish" "Hola" rfl rfl

/-- C9: a query whose stripped length is below 2 (the empty string
included) makes search return the empty list whatever the stored data
is — the result does not depend on the message table, so no storage
lookup can influence it. -/
theorem search_conversations_c9 :
    ∀ (q : String) (db : List JoinedMsg),
      (pyStrip q).length < 2 →
      search_conversations db q = .ok [] := by
  intro q db h
  unfold search_conversations
  rw [if_pos (Or.inr h)]

/-- Witness for C9 at a one-character query over a non-empty table. -/
theorem search_conversations_c9_witness :
    search_conversations
      [⟨⟨"m1", "c1", "doctor", "chest pain", "English", "dolor", "Spanish",
         none, 1⟩, "Bob"⟩] "a" = .ok [] :=
  search_conversations_c9 "a" _ (by decide)

/-- C3: createAudioMessage runs transcribe, translate, upload to
conversationId/role/randomId.webm, then the insert, in that fixed
order: a failing step surfaces its error and leaves every later
effect unperformed (in particular no Message row is inserted when
transcription, translation or upload fails), while an insert failure
leaves the already-uploaded object in storage. -/
theorem process_audio_c3 :
    ∀ (su : String) (st : AudioState)
      (transcriber : List Nat → Except HTTPExc String)
      (translator : String → String → String → Except HTTPExc String)
      (uploadRes insertRes : Except String Unit)
      (randId newMsgId : String) (now : Nat)
      (cid role sl tl : String) (bytes : List Nat),
      (∀ e, transcriber bytes = .error e →
        process_audio su st transcriber translator uploadRes insertRes
            randId newMsgId now cid role sl tl bytes =
          (.error ⟨500, strOfExc e⟩, st)) ∧
      (∀ t e, transcriber bytes = .ok t → translator t sl tl = .error e →
        process_audio su st transcriber translator uploadRes insertRes
            randId newMsgId now cid role sl tl bytes =
          (.error ⟨500, strOfExc e⟩, st)) ∧
      (∀ t tr s, transcriber bytes = .ok t → translator t sl tl = .ok tr →
        uploadRes = .error s →
        process_audio su st transcriber translator uploadRes insertRes
            randId newMsgId now cid role sl tl bytes =
          (.error ⟨500, s⟩, st)) ∧
      (∀ t tr s, transcriber bytes = .ok t → translator t sl tl = .ok tr →
        uploadRes = .ok () → insertRes = .error s →
        process_audio su st transcriber translator uploadRes insertRes
            randId newMsgId now cid role sl tl bytes =
          (.error ⟨500, s⟩,
           { storage := st.storage
               ++ [(cid ++ "/" ++ role ++ "/" ++ randId ++ ".webm", bytes)],
             messages := st.messages })) ∧
      (∀ t tr, transcriber bytes = .ok t → translator t sl tl = .ok tr →
        uploadRes = .ok () → insertRes = .ok () →
        process_audio su st transcriber translator uploadRes insertRes
            randId newMsgId now cid role sl tl bytes =
          (.ok
            { id := newMsgId, conversation_id := cid, role := role
              original_text := t, original_lang := sl
              translated_text := tr, translated_lang := tl
              audio_url := some (su ++ "/storage/v1/object/public/audio-files/"
                ++ (cid ++ "/" ++ role ++ "/" ++ randId ++ ".webm"))
              created_at := now },
           { storage := st.storage
               ++ [(cid ++ "/" ++ role ++ "/" ++ randId ++ ".webm", bytes)],
             messages := st.messages
               ++ [{ id := newMsgId, conversation_id := cid, role := role
                     original_text := t, original_lang := sl
                     translated_text := tr, translated_lang := tl
                     audio_url := some (su ++ "/storage/v1/object/public/audio-files/"
                       ++ (cid ++ "/" ++ role ++ "/" ++ randId ++ ".webm"))
                     created_at := now }] })) := by
  intro su st transcriber translator uploadRes insertRes randId newMsgId now
    cid role sl tl bytes
  refine ⟨?_, ?_, ?_, ?_, ?_⟩
  · intro e h1
    simp [process_audio, h1, wrap500]
  · intro t e h1 h2
    simp [process_audio, h1, h2, wrap500]
  · intro t tr s h1 h2 h3
    simp [process_audio, h1, h2, h3]
  · intro t tr s h1 h2 h3 h4
    simp [process_audio, h1, h2, h3, h4]
  · intro t tr h1 h2 h3 h4
    simp [process_audio, h1, h2, h3, h4]

/-- Witness for C3: a failing transcription aborts the pipeline with
the transcription error and leaves storage and messages untouched,
and a failing insert after a successful upload leaves the uploaded
object behind with no message row. -/
theorem process_audio_c3_witness :
    process_audio "u" ⟨[], []⟩
        (fun _ => .error ⟨500, "Transcription failed: boom"⟩)
        (fun _ _ _ => .ok "tr") (.ok ()) (.ok ())
        "r" "m1" 0 "c1" "doctor" "English" "Spanish" [1, 2] =
      (.error ⟨500, strOfExc ⟨500, "Transcription failed: boom"⟩⟩, ⟨[], []⟩) ∧
    process_audio "u" ⟨[], []⟩
        (fun _ => .ok "hello") (fun _ _ _ => .ok "hola")
        (.ok ()) (.error "insert down")
        "r" "m1" 0 "c1" "doctor" "English" "Spanish" [1, 2] =
      (.error ⟨500, "insert down"⟩,
       ⟨[("c1" ++ "/" ++ "doctor" ++ "/" ++ "r" ++ ".webm", [1, 2])], []⟩) :=
  ⟨(process_audio_c3 "u" ⟨[], []⟩
      (fun _ => .error ⟨500, "Transcription failed: boom"⟩)
      (fun _ _ _ => .ok "tr") (.ok ()) (.ok ())
      "r" "m1" 0 "c1" "doctor" "English" "Spanish" [1, 2]).1
      ⟨500, "Transcription failed: boom"⟩ rfl,
   (process_audio_c3 "u" ⟨[], []⟩
      (fun _ => .ok "hello") (fun _ _ _ => .ok "hola")
      (.ok ()) (.error "insert down")
      "r" "m1" 0 "c1" "doctor" "English" "Spanish" [1, 2]).2.2.2.1
      "hello" "hola" "insert down" rfl rfl rfl rfl⟩

/-- C5: updateConversation applies only the supplied non-empty
fields — with exactly one field supplied, every other column of every
stored row keeps its previous value; but with no field supplied the
handler's 400 HTTPException is caught by its broad `except Exception`
and re-raised as status 500, so the failure reaches the client as
HTTP 500 (detail "400: No update data provided"), not as the HTTP 400
the claim states. -/
theorem update_conversation_c5 :
    (∀ (db : List Conversation) (cid d : String), d ≠ "" →
      (update_conversation db cid (some d) none none).2 =
        db.map (fun c => if c.id == cid then { c with doctor_lang := d } else c)) ∧
    (∀ (db : List Conversation) (cid p : String), p ≠ "" →
      (update_conversation db cid none (some p) none).2 =
        db.map (fun c => if c.id == cid then { c with patient_lang := p } else c)) ∧
    (∀ (db : List Conversation) (cid n : String), n ≠ "" →
      (update_conversation db cid none none (some n)).2 =
        db.map (fun c => if c.id == cid then { c with patient_name := n } else c)) ∧
    update_conversation [⟨"c1", "Bob", "English", "Spanish", 0⟩] "c1"
        none none none =
      (.error ⟨500, "400: No update data provided"⟩,
       [⟨"c1", "Bob", "English", "Spanish", 0⟩]) := by
  refine ⟨?_, ?_, ?_, rfl⟩
  · intro db cid d h
    have hd : truthy (some d) = true := by simp [truthy, h]
    unfold update_conversation
    rw [hd]
    simp [truthy, applyUpdate]
  · intro db cid p h
    have hp : truthy (some p) = true := by simp [truthy, h]
    unfold update_conversation
    rw [hp]
    simp [truthy, applyUpdate]
  · intro db cid n h
    have hn : truthy (some n) = true := by simp [truthy, h]
    unfold update_conversation
    rw [hn]
    simp [truthy, applyUpdate]

/-- Witness for C5: updating only doctor_lang leaves patient_lang,
patient_name, id and created_at unchanged. -/
theorem update_conversation_c5_witness :
    (update_conversation [⟨"c1", "Bob", "English", "Spanish", 0⟩] "c1"
        (some "French") none none).2 =
      [⟨"c1", "Bob", "French", "Spanish", 0⟩] := by
  have h := update_conversation_c5.1
    [⟨"c1", "Bob", "English", "Spanish", 0⟩] "c1" "French" (by decide)
  rw [h]
  rfl

/-- C10: a PATCH whose supplied fields are all empty strings behaves
exactly as the call with no fields supplied — same no-update-data
error response — and leaves the conversations table unchanged. -/
theorem update_conversation_c10 :
    ∀ (db : List Conversation) (cid : String) (f1 f2 f3 : Option String),
      (f1 = none ∨ f1 = some "") →
      (f2 = none ∨ f2 = some "") →
      (f3 = none ∨ f3 = some "") →
      update_conversation db cid f1 f2 f3 =
        update_conversation db cid none none none ∧
      (update_conversation db cid f1 f2 f3).2 = db := by
  intro db cid f1 f2 f3 h1 h2 h3
  have t1 : truthy f1 = false := by rcases h1 with h | h <;> subst h <;> rfl
  have t2 : truthy f2 = false := by rcases h2 with h | h <;> subst h <;> rfl
  have t3 : truthy f3 = false := by rcases h3 with h | h <;> subst h <;> rfl
  constructor
  · unfold update_conversation
    rw [t1, t2, t3]
    rfl
  · unfold update_conversation
    rw [t1, t2, t3]
    rfl

/-- Membership in the output of the sorting insertion step. -/
theorem mem_insertByCreated {m y : Message} {l : List Message} :
    y ∈ insertByCreated m l ↔ y = m ∨ y ∈ l := by
  induction l with
  | nil => simp [insertByCreated]
  | cons x xs ih =>
    by_cases h : m.created_at ≤ x.created_at
    · simp only [insertByCreated, if_pos h, List.mem_cons]
    · simp only [insertByCreated, if_neg h, List.mem_cons, ih]
      tauto

/-- The sorting insertion step preserves ascending created_at order. -/
theorem pairwise_insertByCreated {m : Message} {l : List Message}
    (h : List.Pairwise (fun a b => a.created_at ≤ b.created_at) l) :
    List.Pairwise (fun a b => a.created_at ≤ b.created_at)
      (insertByCreated m l) := by
  induction l with
  | nil => simp [insertByCreated]
  | cons x xs ih =>
    rcases List.pairwise_cons.mp h with ⟨hx, hxs⟩
    by_cases hle : m.created_at ≤ x.created_at
    · rw [insertByCreated, if_pos hle]
      refine List.pairwise_cons.mpr ⟨?_, h⟩
      intro y hy
      rcases List.mem_cons.mp hy with rfl | hy'
      · exact hle
      · exact le_trans hle (hx y hy')
    · rw [insertByCreated, if_neg hle]
      refine List.pairwise_cons.mpr ⟨?_, ih hxs⟩
      intro y hy
      rcases mem_insertByCreated.mp hy with rfl | hy'
      · exact Nat.le_of_not_le hle
      · exact hx y hy'

/-- The model of the storage layer's order-by returns the rows in
ascending created_at order. -/
theorem pairwise_sortByCreated (l : List Message) :
    List.Pairwise (fun a b => a.created_at ≤ b.created_at)
      (sortByCreated l) := by
  induction l with
  | nil => exact List.Pairwise.nil
  | cons m ms ih => exact pairwise_insertByCreated ih

/-- Witness for C10: all-empty supplied fields at a concrete table
give the same response as no fields at all, and change nothing. -/
theorem update_conversation_c10_witness :
    update_conversation [⟨"c1", "Bob", "English", "Spanish", 0⟩] "c1"
        (some "") (some "") (some "") =
      update_conversation [⟨"c1", "Bob", "English", "Spanish", 0⟩] "c1"
        none none none ∧
    (update_conversation [⟨"c1", "Bob", "English", "Spanish", 0⟩] "c1"
        (some "") (some "") (some "")).2 =
      [⟨"c1", "Bob", "English", "Spanish", 0⟩] :=
  update_conversation_c10 [⟨"c1", "Bob", "English", "Spanish", 0⟩] "c1"
    (some "") (some "") (some "")
    (Or.inr rfl) (Or.inr rfl) (Or.inr rfl)

/-- C7: summarize renders the conversation's messages, in ascending
created_at order, as "{ROLE}: {original_text}" joined by newlines, and
that text is what reaches the summarization model (inside the fixed
prompt); but when the conversation has no messages, the handler's 404
HTTPException is caught by its broad `except Exception` and re-raised
as status 500, so the failure reaches the client as HTTP 500 (detail
"404: No messages found"), not as the HTTP 404 the claim states. -/
theorem generate_summary_c7 :
    (∀ (db : List Message) (cid : String) (model : String → String)
       (m : Message) (rest : List Message),
      sortByCreated (db.filter (fun x => x.conversation_id == cid)) = m :: rest →
      generate_summary db cid model =
        .ok (pyStrip (model (summaryPrompt (conversationText (m :: rest)))))) ∧
    (∀ (l : List Message),
      List.Pairwise (fun a b => a.created_at ≤ b.created_at)
        (sortByCreated l)) ∧
    generate_summary [] "c1" (fun s => s) =
      .error ⟨500, "404: No messages found"⟩ := by
  refine ⟨?_, pairwise_sortByCreated, rfl⟩
  intro db cid model m rest h
  unfold generate_summary
  rw [h]
  rfl

/-- Witness for C7 at a one-message conversation. -/
theorem generate_summary_c7_witness :
    generate_summary
      [{ id := "m1", conversation_id := "c1", role := "doctor"
         original_text := "Hello", original_lang := "English"
         translated_text := "Hola", translated_lang := "Spanish"
         audio_url := none, created_at := 5 }] "c1" (fun s => s) =
      .ok (pyStrip (summaryPrompt (conversationText
        [{ id := "m1", conversation_id := "c1", role := "doctor"
           original_text := "Hello", original_lang := "English"
           translated_text := "Hola", translated_lang := "Spanish"
           audio_url := none, created_at := 5 }]))) :=
  generate_summary_c7.1 _ "c1" (fun s => s) _ [] (by decide)

/-- C8: every execution of transcribe removes the transient audio file
before returning or raising — the temp path never survives in the file
system, which is restored exactly when the path was fresh — and a
successful run returns the provider's transcript with surrounding
whitespace stripped. -/
theorem transcribe_audio_c8 :
    ∀ (tempFiles : List String) (tempPath : String)
      (writeRes : Except String Unit)
      (provider : List Nat → Except String String) (bytes : List Nat),
      tempPath ∉ (transcribe_audio tempFiles tempPath writeRes provider bytes).2 ∧
      (tempPath ∉ tempFiles →
        (transcribe_audio tempFiles tempPath writeRes provider bytes).2 =
          tempFiles) ∧
      (∀ t, writeRes = .ok () → provider bytes = .ok t →
        (transcribe_audio tempFiles tempPath writeRes provider bytes).1 =
          .ok (pyStrip t)) := by
  intro tempFiles tempPath writeRes provider bytes
  have hsnd : (transcribe_audio tempFiles tempPath writeRes provider bytes).2 =
      removeFile tempPath (tempFiles ++ [tempPath]) := rfl
  refine ⟨?_, ?_, ?_⟩
  · rw [hsnd]
    simp [removeFile, List.mem_filter]
  · intro h
    rw [hsnd]
    simp only [removeFile, List.filter_append]
    rw [List.filter_eq_self.mpr, List.filter_cons, if_neg (by simp)]
    · simp
    · intro a ha
      simp only [bne_iff_ne, ne_eq]
      exact fun hEq => h (hEq ▸ ha)
  · intro t h1 h2
    simp [transcribe_audio, h1, h2]

/-- Witness for C8: a fresh temp path with a succeeding provider — the
file system is restored and the trimmed transcript returned. -/
theorem transcribe_audio_c8_witness :
    (transcribe_audio ["keep"] "tmp" (.ok ()) (fun _ => .ok " hi ") [1]).2 =
      ["keep"] ∧
    (transcribe_audio ["keep"] "tmp" (.ok ()) (fun _ => .ok " hi ") [1]).1 =
      .ok (pyStrip " hi ") := by
  have h := transcribe_audio_c8 ["keep"] "tmp" (.ok ()) (fun _ => .ok " hi ") [1]
  exact ⟨h.2.1 (by decide), h.2.2 " hi " rfl rfl⟩

/-- C4: the context built for a search hit equals, for every text and
query, the spec's window — up to 30 characters before and after the
first case-insensitive occurrence of the query, "..." prepended
exactly when characters were cut before the window and appended
exactly when characters were cut after it, falling back to the first
100 characters (with trailing "..." only when the text is longer)
when the query does not occur — checked also on the spec's concrete
chest-pain example, which fits whole and gains no markers. -/
theorem search_context_c4 :
    (∀ text q : List Char, searchContext text q = specContextWindow text q) ∧
    searchContext "the patient reports chest pain and shortness of breath".data
        "chest".data =
      "the patient reports chest pain and shortness of breath".data := by
  constructor
  · intro text q
    unfold searchContext specContextWindow
    cases hF : strFind (lowerStr text) (lowerStr q) with
    | none =>
      by_cases h : 100 < text.length
      · rw [if_pos h, if_neg (by omega)]
      · rw [if_neg h, if_pos (by omega)]
    | some idx =>
      simp only []
      have hlo : (if idx ≤ 30 then 0 else idx - 30) = idx - 30 := by
        by_cases h : idx ≤ 30
        · simp [h, Nat.sub_eq_zero_of_le h]
        · simp [h]
      have hhi : (if text.length ≤ idx + q.length + 30 then text.length
          else idx + q.length + 30) = min text.length (idx + q.length + 30) := by
        rw [min_def]
      rw [hlo, hhi]
      have hwin : (text.take (min text.length (idx + q.length + 30))).drop
            (idx - 30) =
          (text.drop (idx - 30)).take
            (min text.length (idx + q.length + 30) - (idx - 30)) :=
        List.drop_take (min text.length (idx + q.length + 30)) (idx - 30) text
      rw [hwin]
      have hle : min text.length (idx + q.length + 30) ≤ text.length :=
        Nat.min_le_left _ _
      by_cases h1 : 0 < idx - 30 <;>
        by_cases h2 : min text.length (idx + q.length + 30) < text.length
      · rw [if_pos h1, if_pos h2, if_neg (by omega), if_neg (by omega)]
      · rw [if_pos h1, if_neg h2, if_neg (by omega), if_pos (by omega)]
        simp
      · rw [if_neg h1, if_pos h2, if_pos (by omega), if_neg (by omega)]
        simp
      · rw [if_neg h1, if_neg h2, if_pos (by omega), if_pos (by omega)]
        simp
  · decide
